import Mathlib

/-!
# Verification of the specutils spectral container and WCS subsystem

Shallow embedding of `specutils/wcs/specwcs.py` and
`specutils/spectra/spectrum1d.py`.  Machine floats are modelled by exact
rationals (`ℚ`); `np.nan` sentinels by `Option.none`; Python exceptions by
`Except Err`.  Astropy units are modelled by their physical dimension
(integer exponents of length, time, mass, and the special `pixel` kind)
together with a rational SI scale factor; `is_equivalent` is dimension
equality, exactly as astropy's equivalency-free `Unit.is_equivalent`.
-/

/-- Error taxonomy for the exceptions raised by the embedded code
(ValueError/TypeError at construction, astropy UnitsError, the
Spectrum1DWCS error hierarchy, and missing-FITS-keyword errors). -/
inductive Err where
  | invalidArgument
  | invalidUnit
  | missingUnit
  | unitMismatch
  | shapeMismatch
  | nonBijective
  | notImplemented
  | missingKeyword
  deriving DecidableEq, Repr

deriving instance DecidableEq for Except

/-- Physical dimension: exponents of length, time, mass, and astropy's
`pix` unit (which has its own physical type, not dimensionless). -/
structure Dim where
  len : ℤ
  time : ℤ
  mass : ℤ
  pixel : ℤ
  deriving DecidableEq, Repr

/-- A unit: a physical dimension together with the rational factor that
converts one of this unit into SI base units. -/
structure SUnit where
  dim : Dim
  scale : ℚ
  deriving DecidableEq, Repr

/-- astropy `Unit.is_equivalent` (no extra equivalencies): the two units
share a physical dimension. -/
def SUnit.is_equivalent (a b : SUnit) : Bool :=
  decide (a.dim = b.dim)

/-- Unit product (used by `lookup_table *= unit`). -/
def SUnit.mul (a b : SUnit) : SUnit :=
  ⟨⟨a.dim.len + b.dim.len, a.dim.time + b.dim.time,
    a.dim.mass + b.dim.mass, a.dim.pixel + b.dim.pixel⟩, a.scale * b.scale⟩

def u_pix : SUnit := ⟨⟨0, 0, 0, 1⟩, 1⟩
def u_km_s : SUnit := ⟨⟨1, -1, 0, 0⟩, 1000⟩
def u_m : SUnit := ⟨⟨1, 0, 0, 0⟩, 1⟩
def u_m_per_s : SUnit := ⟨⟨1, -1, 0, 0⟩, 1⟩
def u_Hz : SUnit := ⟨⟨0, -1, 0, 0⟩, 1⟩
def u_erg : SUnit := ⟨⟨2, -2, 1, 0⟩, 1 / 10000000⟩
def u_AA : SUnit := ⟨⟨1, 0, 0, 0⟩, 1 / 10000000000⟩
def u_kg : SUnit := ⟨⟨0, 0, 1, 0⟩, 1⟩
def u_dimensionless : SUnit := ⟨⟨0, 0, 0, 0⟩, 1⟩

/-- `valid_spectral_units = [u.pix, u.km/u.s, u.m, u.Hz, u.erg]`
(specwcs.py line 12). -/
def valid_spectral_units : List SUnit := [u_pix, u_km_s, u_m, u_Hz, u_erg]

/-- `check_valid_unit` (specwcs.py lines 16-19): raises unless the unit is
equivalent to some member of `valid_spectral_units`. -/
def check_valid_unit (unit : SUnit) : Except Err Unit :=
  if valid_spectral_units.any (fun x => unit.is_equivalent x) then
    Except.ok ()
  else
    Except.error Err.invalidUnit

/-- A scalar astropy `Quantity`: a value with a unit. -/
structure SQuantity where
  value : ℚ
  unit : SUnit
  deriving DecidableEq, Repr

/-- An argument that may be a bare Python number or a `Quantity`. -/
inductive PyVal where
  | plain (v : ℚ)
  | quant (v : ℚ) (u : SUnit)
  deriving DecidableEq, Repr

/-- astropy `u.Quantity(x, unit)`: tags a bare number with `unit`
(dimensionless when `unit is None`), keeps a quantity's own unit when
`unit is None`, and converts a quantity to `unit` otherwise (raising a
unit-conversion error when the dimensions disagree). -/
def u_Quantity (x : PyVal) (unit : Option SUnit) : Except Err SQuantity :=
  match x, unit with
  | .plain v, none => Except.ok ⟨v, u_dimensionless⟩
  | .plain v, some uu => Except.ok ⟨v, uu⟩
  | .quant v vu, none => Except.ok ⟨v, vu⟩
  | .quant v vu, some uu =>
      if vu.dim = uu.dim then Except.ok ⟨v * vu.scale / uu.scale, uu⟩
      else Except.error Err.unitMismatch

/-!
## `np.interp`

`np.interp(x, xp, fp, left=np.nan, right=np.nan)` over exact rationals:
the NaN sentinels returned left of `xp[0]` and right of `xp[-1]` become
`Option.none`; inside the range the walk finds the first segment whose
right endpoint is at or past `x` and interpolates linearly on it, which
agrees with numpy's binary search whenever `xp` is increasing (the
precondition numpy documents).
-/

/-- Piecewise-linear interpolation over `(x, f x)` sample pairs; the
caller guarantees `x` is within the sampled range. -/
def interpPoints (x : ℚ) : List (ℚ × ℚ) → ℚ
  | [] => 0
  | [p] => p.2
  | p :: q :: rest =>
      if x ≤ q.1 then
        if x ≤ p.1 then p.2
        else p.2 + (q.2 - p.2) * (x - p.1) / (q.1 - p.1)
      else interpPoints x (q :: rest)

/-- `np.interp x xp fp` with `left = right = nan` (`none`). -/
def np_interp (x : ℚ) (xp fp : List ℚ) : Option ℚ :=
  match xp, fp with
  | x0 :: xps, f0 :: fps =>
      if x < x0 then none
      else if (x0 :: xps).getLast (List.cons_ne_nil x0 xps) < x then none
      else some (interpPoints x (List.zip (x0 :: xps) (f0 :: fps)))
  | _, _ => none

/-!
## `Spectrum1DLookupWCS` (specwcs.py lines 42-100)
-/

/-- The state of a constructed `Spectrum1DLookupWCS`: the lookup table's
raw values, its unit, and the interpolation kind.  The `pixel_index`
attribute set by `__init__` is always `np.arange(len(lookup_table))` and
is recovered by `Spectrum1DLookupWCS.pixel_index`. -/
structure Spectrum1DLookupWCS where
  lookup_table : List ℚ
  unit : SUnit
  lookup_table_interpolation_kind : String
  deriving DecidableEq, Repr

/-- `self.pixel_index = np.arange(len(self.lookup_table_parameter.value))`
(specwcs.py line 86). -/
def Spectrum1DLookupWCS.pixel_index (w : Spectrum1DLookupWCS) : List ℚ :=
  (List.range w.lookup_table.length).map (fun n : ℕ => (n : ℚ))

/-- `Spectrum1DLookupWCS.__init__` (specwcs.py lines 57-86).
`tableUnit` is the `unit` attribute the passed lookup table itself
carries (`none` for a plain ndarray); `unit` is the explicit keyword
argument.  When the keyword is given it is validated and multiplied onto
the table (`lookup_table *= unit`); when it is absent the table's own
unit is taken *without* validation.  Then the bijectivity (duplicate)
check runs, comparing the length against `len(np.unique(...))`. -/
def Spectrum1DLookupWCS.init (lookup_table : List ℚ)
    (tableUnit unit : Option SUnit)
    (lookup_table_interpolation_kind : String) :
    Except Err Spectrum1DLookupWCS :=
  match unit, tableUnit with
  | none, none => Except.error Err.missingUnit
  | none, some tu =>
      if lookup_table.length ≠ lookup_table.dedup.length then
        Except.error Err.nonBijective
      else
        Except.ok ⟨lookup_table, tu, lookup_table_interpolation_kind⟩
  | some uA, tu =>
      match check_valid_unit uA with
      | Except.error e => Except.error e
      | Except.ok _ =>
          if lookup_table.length ≠ lookup_table.dedup.length then
            Except.error Err.nonBijective
          else
            Except.ok ⟨lookup_table,
              (match tu with | none => uA | some t => SUnit.mul t uA),
              lookup_table_interpolation_kind⟩

/-- `Spectrum1DLookupWCS.__call__` (specwcs.py lines 88-93): linear
interpolation of the pixel index over `(pixel_index, lookup_table)`,
NaN (`none`) outside `[0, N-1]`; non-linear kinds raise. -/
def Spectrum1DLookupWCS.call (w : Spectrum1DLookupWCS) (pixel_indices : ℚ) :
    Except Err (Option ℚ) :=
  if w.lookup_table_interpolation_kind = "linear" then
    Except.ok (np_interp pixel_indices w.pixel_index w.lookup_table)
  else
    Except.error Err.notImplemented

/-- `Spectrum1DLookupWCS.invert` (specwcs.py lines 96-100): interpolation
of the dispersion value over `(lookup_table, pixel_index)`. -/
def Spectrum1DLookupWCS.invert (w : Spectrum1DLookupWCS)
    (dispersion_values : ℚ) : Except Err (Option ℚ) :=
  if w.lookup_table_interpolation_kind = "linear" then
    Except.ok (np_interp dispersion_values w.lookup_table w.pixel_index)
  else
    Except.error Err.notImplemented

/-!
## `Spectrum1DLinearWCS` (specwcs.py lines 104-211)
-/

/-- The state of a constructed `Spectrum1DLinearWCS`. -/
structure Spectrum1DLinearWCS where
  dispersion0 : ℚ
  dispersion_delta : ℚ
  pixel_index : ℚ
  unit : SUnit
  deriving DecidableEq, Repr

/-- `Spectrum1DLinearWCS.__init__` (specwcs.py lines 168-189): both
scalars are coerced via `u.Quantity(..., unit)` and their units
validated; the stored unit is the argument or, failing that, the unit of
`dispersion0`. -/
def Spectrum1DLinearWCS.init (dispersion0 dispersion_delta : PyVal)
    (pixel_index : ℚ) (unit : Option SUnit) :
    Except Err Spectrum1DLinearWCS :=
  match u_Quantity dispersion0 unit with
  | Except.error e => Except.error e
  | Except.ok d0 =>
    match u_Quantity dispersion_delta unit with
    | Except.error e => Except.error e
    | Except.ok dd =>
      match check_valid_unit d0.unit with
      | Except.error e => Except.error e
      | Except.ok _ =>
        match check_valid_unit dd.unit with
        | Except.error e => Except.error e
        | Except.ok _ =>
            Except.ok ⟨d0.value, dd.value, pixel_index,
              (match unit with | none => d0.unit | some uu => uu)⟩

/-- `Spectrum1DLinearWCS.__call__` (specwcs.py lines 193-196):
`(dispersion0 + dispersion_delta * (pixel_indices - pixel_index)) * unit`. -/
def Spectrum1DLinearWCS.call (w : Spectrum1DLinearWCS) (pixel_indices : ℚ) :
    SQuantity :=
  ⟨w.dispersion0 + w.dispersion_delta * (pixel_indices - w.pixel_index),
    w.unit⟩

/-- `Spectrum1DLinearWCS.invert` (specwcs.py lines 198-204): requires a
unit-tagged input (guaranteed here by the `SQuantity` type) and solves
the affine equation on the raw value. -/
def Spectrum1DLinearWCS.invert (w : Spectrum1DLinearWCS)
    (dispersion_values : SQuantity) : ℚ :=
  (dispersion_values.value - w.dispersion0) / w.dispersion_delta +
    w.pixel_index

/-- A FITS header restricted to the dispersion keywords
`from_fits_header` reads (for `spectroscopic_axis_number = 1`):
`CUNIT1` (as a parsed unit), `CDELT1`, `CD1_1`, `CRPIX1`, `CRVAL1`;
`none` models an absent keyword. -/
structure FitsHeader where
  cunit : Option SUnit
  cdelt : Option ℚ
  cd : Option ℚ
  crpix : Option ℚ
  crval : Option ℚ
  deriving DecidableEq, Repr

/-- `Spectrum1DLinearWCS.from_fits_header` (specwcs.py lines 114-165):
resolve the unit (explicit argument, else `CUNIT1`, else a missing-unit
error); read the delta from `CDELT1`, else `CD1_1`, else a
missing-keyword error; read `CRPIX1`/`CRVAL1` or a missing-keyword
error; build `cls(crval, cdelt, crpix - 1, unit=unit)`. -/
def Spectrum1DLinearWCS.from_fits_header (header : FitsHeader)
    (unit : Option SUnit) : Except Err Spectrum1DLinearWCS :=
  match (match unit with
         | some uA => Except.ok uA
         | none =>
           match header.cunit with
           | some cu => Except.ok cu
           | none => Except.error Err.missingUnit : Except Err SUnit) with
  | Except.error e => Except.error e
  | Except.ok u =>
    match (match header.cdelt with
           | some c => Except.ok c
           | none =>
             match header.cd with
             | some c => Except.ok c
             | none => Except.error Err.missingKeyword : Except Err ℚ) with
    | Except.error e => Except.error e
    | Except.ok cdelt =>
      match header.crpix, header.crval with
      | some crpix, some crval =>
          Spectrum1DLinearWCS.init (.plain crval) (.plain cdelt)
            (crpix - 1) (some u)
      | _, _ => Except.error Err.missingKeyword

/-!
## `Spectrum1D` (spectrum1d.py)

The container is modelled at the level the claims need: the stored data
shape, the length of the WCS array (= spectral-axis length), whether the
minimal scalar mode was taken, and the single stored
`_radial_velocity`.  Flux values themselves are never read by the
claimed properties about `__init__` and the velocity accessors, so only
shapes and units are carried; `__getitem__` on a 1-D flux is modelled
separately at value level below.
-/

/-- `astropy.constants.c` in SI: 299792458 m/s. -/
def c_si : ℚ := 299792458

/-- A radial-velocity `Quantity`: a representative value, a unit, and an
array shape (`[]` for a scalar). -/
structure RVal where
  value : ℚ
  unit : SUnit
  shape : List ℕ
  deriving DecidableEq, Repr

/-- The `Spectrum1D` state the claims observe: the shape of the stored
data (`none` when `data is None`), the length of the WCS array backing
the spectral axis (`none` in the minimal scalar mode), whether the
minimal mode was taken at construction, and `_radial_velocity`. -/
structure Spectrum1D where
  dataShape : Option (List ℕ)
  wcsLen : Option ℕ
  minimal : Bool
  rv : Option RVal
  deriving DecidableEq, Repr

/-- The `radial_velocity.setter` (spectrum1d.py lines 283-299): `None`
clears the stored value; otherwise the unit must be velocity-equivalent
and the shape test zips the *reversed* assigned shape against the
*unreversed* leading flux shape, exactly as written in the source. -/
def Spectrum1D.set_radial_velocity (s : Spectrum1D) (val : Option RVal) :
    Except Err Spectrum1D :=
  match val with
  | none => Except.ok { s with rv := none }
  | some v =>
      if ¬ v.unit.is_equivalent u_km_s then Except.error Err.unitMismatch
      else
        let input_shape := v.shape
        let flux_shape := (s.dataShape.getD []).dropLast
        if ¬ (List.zip input_shape.reverse flux_shape).all
            (fun mn => mn.1 == mn.2 || mn.1 == 1 || mn.2 == 1) then
          Except.error Err.shapeMismatch
        else
          Except.ok { s with rv := some v }

/-- The `redshift.setter` (spectrum1d.py lines 264-269): `None` clears
the stored radial velocity directly; otherwise it assigns
`val * cnst.c` (value scaled by `c`, unit m/s, shape preserved) through
the `radial_velocity` setter. -/
def Spectrum1D.set_redshift (s : Spectrum1D) (val : Option (ℚ × List ℕ)) :
    Except Err Spectrum1D :=
  match val with
  | none => Except.ok { s with rv := none }
  | some (z, sh) => s.set_radial_velocity (some ⟨z * c_si, u_m_per_s, sh⟩)

/-- The `radial_velocity` property getter (spectrum1d.py lines 271-281):
returns the stored `_radial_velocity`. -/
def Spectrum1D.radial_velocity (s : Spectrum1D) : Option RVal := s.rv

/-- The `redshift` property getter (spectrum1d.py lines 252-262):
`self._radial_velocity / cnst.c`.  With `_radial_velocity = None` the
Python division raises a TypeError; otherwise the result is a
dimensionless quantity whose physical value is the SI radial velocity
divided by `c` (returned here together with its shape). -/
def Spectrum1D.redshift (s : Spectrum1D) : Except Err (ℚ × List ℕ) :=
  match s.rv with
  | none => Except.error Err.invalidArgument
  | some v => Except.ok (v.value * v.unit.scale / c_si, v.shape)

/-- Numpy broadcast compatibility of two shapes (trailing axes aligned):
the reference semantics the source's comment appeals to. -/
def np_broadcastable (a b : List ℕ) : Bool :=
  (List.zip a.reverse b.reverse).all
    (fun mn => mn.1 == mn.2 || mn.1 == 1 || mn.2 == 1)

/-- The `flux` argument of `Spectrum1D.__init__`: either an astropy
`Quantity` (shape and unit) or a non-Quantity array-like (shape only);
the `NDDataRef` copy-construction fast path of lines 62-67 carries no
spectral axis and is outside every claim. -/
inductive FluxArg where
  | quant (shape : List ℕ) (unit : SUnit)
  | raw (shape : List ℕ)
  deriving DecidableEq, Repr

/-- Shape of either flavour of flux argument. -/
def FluxArg.shapeOf : FluxArg → List ℕ
  | .quant sh _ => sh
  | .raw sh => sh

/-- Lines 70-74 of `__init__`: a non-Quantity flux raises; a scalar
Quantity is promoted to the one-element array `u.Quantity([flux])`. -/
def promote_flux : Option FluxArg → Except Err (Option FluxArg)
  | some (.raw _) => Except.error Err.invalidArgument
  | some (.quant sh un) =>
      Except.ok (some (.quant (if sh = [] then [1] else sh) un))
  | none => Except.ok none

/-- Modelled from the spec: `SpectralCoord`
(spectra/spectral_coordinate.py, not under src/) keeps `redshift` and
`radial_velocity` in lock-step (`redshift = radial_velocity / c`); built
with one of the two, its `radial_velocity` is the given velocity, or the
given redshift times `c` (an SI velocity), or absent. -/
def spectralCoord_radial_velocity (redshift : Option ℚ)
    (radial_velocity : Option RVal) : Option RVal :=
  match radial_velocity, redshift with
  | some v, _ => some v
  | none, some z => some ⟨z * c_si, u_m_per_s, []⟩
  | none, none => none

/-- Modelled from the spec: when no spectral-axis Quantity argument is
given, `self.spectral_axis` at line 156 is the parent/mixin-derived axis
(spectrum_mixin.py, not under src/), which carries no velocity
information, so its `radial_velocity` is absent. -/
def mixin_spectral_axis_rv : Option RVal := none

/-- Lines 150-161 of `__init__`: build the container, run
`self.radial_velocity = self.spectral_axis.radial_velocity` through the
property setter, then check the uncertainty shape against the flux
shape. -/
def Spectrum1D.init_finish (fluxShape : Option (List ℕ))
    (wcsLen : Option ℕ) (scRV : Option RVal)
    (uncertainty0 : Option (List ℕ)) : Except Err Spectrum1D :=
  match Spectrum1D.set_radial_velocity
      { dataShape := fluxShape, wcsLen := wcsLen, minimal := false,
        rv := none } scRV with
  | Except.error e => Except.error e
  | Except.ok s1 =>
      match uncertainty0 with
      | some ush =>
          if fluxShape.getD [] ≠ ush then Except.error Err.shapeMismatch
          else Except.ok s1
      | none => Except.ok s1

/-- `Spectrum1D.__init__` (spectrum1d.py lines 49-161), at shape level.
`spectral_axis0` is the 1-D spectral-axis Quantity as (length, unit);
`wcs0` the length of a pre-built WCS array; `data0` the `data=` keyword
used internally by slicing; `uncertainty0` the uncertainty's shape.
`velocity_convention` and `rest_value` bookkeeping (lines 128-148) is
omitted: with the default `rest_value=None` it raises nothing and no
claim reads it. -/
def Spectrum1D.init (flux0 : Option FluxArg)
    (spectral_axis0 : Option (ℕ × SUnit)) (wcs0 : Option ℕ)
    (redshift0 : Option ℚ) (radial_velocity0 : Option RVal)
    (data0 : Option FluxArg) (uncertainty0 : Option (List ℕ)) :
    Except Err Spectrum1D :=
  match promote_flux flux0 with
  | Except.error e => Except.error e
  | Except.ok flux1 =>
    -- line 77: at most one of redshift / radial_velocity
    if redshift0.isSome && radial_velocity0.isSome then
      Except.error Err.invalidArgument
    else
      -- lines 83-84: fall back to the `data` keyword
      let flux2 := match flux1 with | none => data0 | some f => some f
      let fluxIsQuant :=
        match flux2 with | some (.quant _ _) => true | _ => false
      let fluxShape : Option (List ℕ) :=
        match flux2 with
        | some f => some f.shapeOf
        | none => none
      -- lines 94-98: minimal scalar mode (`np.ndim(flux) == 0` and flux
      -- is not a Quantity; `np.ndim(None) == 0`)
      if fluxIsQuant = false ∧ fluxShape.getD [] = [] then
        Except.ok { dataShape := fluxShape, wcsLen := wcs0,
                    minimal := true, rv := none }
      else
        -- lines 103-121: spectral axis / wcs resolution
        let wcsLen : Option ℕ :=
          match spectral_axis0 with
          | some (n, _) => some n
          | none =>
            match wcs0 with
            | some wn => some wn
            | none =>
                some (match fluxShape.getD [] with
                      | [] => 1
                      | k :: _ => k)
        let scRV : Option RVal :=
          match spectral_axis0 with
          | some _ => spectralCoord_radial_velocity redshift0 radial_velocity0
          | none => mixin_spectral_axis_rv
        -- lines 123-126: spectral-axis length vs last flux axis
        let shapeOk : Bool :=
          match flux2, spectral_axis0 with
          | some f, some (n, _) => n == f.shapeOf.getLastD 0
          | _, _ => true
        if shapeOk then
          Spectrum1D.init_finish fluxShape wcsLen scRV uncertainty0
        else
          Except.error Err.shapeMismatch

/-!
## `Spectrum1D.__getitem__` on 1-D flux (spectrum1d.py lines 163-186)
-/

/-- Value-level view of a 1-D `Spectrum1D`: its flux values and its
spectral-axis values (the container invariant makes them equal-length). -/
structure Spectrum1DArrays where
  flux : List ℚ
  spectral_axis : List ℚ
  deriving DecidableEq, Repr

/-- Modelled from the spec: the parent array-container's native slicing
(`super().__getitem__`, reached through `NDDataRef` and
spectrum_mixin.py, neither under src/) applies the same slice to the
flux and to the spectral axis.  Python `l[a:b]` is `(l.drop a).take
(b - a)`. -/
def nddata_getitem_slice (s : Spectrum1DArrays) (start stop : ℕ) :
    Spectrum1DArrays :=
  ⟨(s.flux.drop start).take (stop - start),
   (s.spectral_axis.drop start).take (stop - start)⟩

/-- `Spectrum1D.__getitem__` with 1-D flux and a scalar index
(spectrum1d.py lines 183-186): the index is normalized to
`slice(item, item + 1, None)` and delegated to `super().__getitem__`. -/
def Spectrum1D.getitem_scalar (s : Spectrum1DArrays) (item : ℕ) :
    Spectrum1DArrays :=
  nddata_getitem_slice s item (item + 1)

/-!
## Claims
-/

/-- C1: for every Linear Transform with `dispersion_delta ≠ 0` and every
pixel index `p`, `invert(evaluate(p)) = p` exactly: the affine forward
map composed with the exact affine inversion is the identity. -/
theorem spec_C1_linear_roundtrip (w : Spectrum1DLinearWCS) (p : ℚ)
    (h : w.dispersion_delta ≠ 0) :
    w.invert (w.call p) = p := by
  simp only [Spectrum1DLinearWCS.call, Spectrum1DLinearWCS.invert]
  field_simp

/-- Witness for C1 at Scenario B's transform
(`dispersion0 = 4000, dispersion_delta = 2, pixel_index = 0`). -/
theorem spec_C1_witness :
    (Spectrum1DLinearWCS.mk 4000 2 0 u_AA).dispersion_delta ≠ 0 ∧
    (Spectrum1DLinearWCS.mk 4000 2 0 u_AA).invert
      ((Spectrum1DLinearWCS.mk 4000 2 0 u_AA).call 500) = 500 :=
  ⟨by decide, spec_C1_linear_roundtrip (Spectrum1DLinearWCS.mk 4000 2 0 u_AA)
    500 (by decide)⟩

/-- C8: the `radial_velocity` setter rejects the velocity array of shape
`(2, 3)` on a flux of shape `(2, 3, 5)` with the shape error, although
`(2, 3)` broadcasts against the flux's leading shape `(2, 3)`: the
source zips the reversed input shape against the *unreversed* leading
flux shape, contradicting the broadcastability check its own comment
describes. -/
theorem spec_C8_broadcast_bug :
    np_broadcastable [2, 3] [2, 3] = true ∧
    Spectrum1D.set_radial_velocity
        ⟨some [2, 3, 5], some 5, false, none⟩
        (some ⟨1, u_km_s, [2, 3]⟩) =
      Except.error Err.shapeMismatch := by
  exact ⟨rfl, rfl⟩

/-- C9: on a 1-D container, a scalar index `i` is normalized to the
slice `[i, i+1)` and delegated to the parent slicing, producing the
single flux value and the length-1 sliced spectral axis. -/
theorem spec_C9_scalar_index (s : Spectrum1DArrays) (i : ℕ)
    (hi : i < s.flux.length)
    (hlen : s.spectral_axis.length = s.flux.length) :
    Spectrum1D.getitem_scalar s i =
      ⟨[s.flux.get ⟨i, hi⟩], [s.spectral_axis.get ⟨i, by omega⟩]⟩ := by
  unfold Spectrum1D.getitem_scalar nddata_getitem_slice
  have h1 : i + 1 - i = 1 := by omega
  congr 1
  · rw [h1, List.drop_eq_getElem_cons hi, List.take_succ_cons, List.take_zero]
    rfl
  · rw [h1, List.drop_eq_getElem_cons (by omega : i < s.spectral_axis.length),
      List.take_succ_cons, List.take_zero]
    rfl

/-- Witness for C9 on a concrete 4-sample spectrum. -/
theorem spec_C9_witness :
    Spectrum1D.getitem_scalar ⟨[1, 2, 3, 4], [4000, 4500, 5000, 5500]⟩ 2 =
      ⟨[3], [5000]⟩ := by
  have h := spec_C9_scalar_index ⟨[1, 2, 3, 4], [4000, 4500, 5000, 5500]⟩ 2
    (by decide) (by decide)
  simpa using h

/-!
## Interpolation lemmas for the Lookup Transform round-trip
-/

/-- In a list whose first components are strictly increasing, the
interpolation walk evaluated exactly at the `j`-th sample point returns
the `j`-th sample value. -/
theorem interpPoints_get (pts : List (ℚ × ℚ))
    (hp : pts.Pairwise (fun a b => a.1 < b.1)) (j : Fin pts.length) :
    interpPoints (pts.get j).1 pts = (pts.get j).2 := by
  induction pts with
  | nil => exact absurd j.isLt (by simp)
  | cons hd tl ih =>
    rcases List.pairwise_cons.mp hp with ⟨hhd, htl⟩
    obtain ⟨jv, hjv⟩ := j
    cases tl with
    | nil =>
      have hj0 : jv = 0 := by simpa using hjv
      subst hj0
      simp [interpPoints]
    | cons p1 tl' =>
      have h01 : hd.1 < p1.1 := hhd p1 (by simp)
      cases jv with
      | zero =>
        show interpPoints hd.1 (hd :: p1 :: tl') = hd.2
        unfold interpPoints
        rw [if_pos (le_of_lt h01), if_pos le_rfl]
      | succ i =>
        have hi : i < (p1 :: tl').length := by simpa using hjv
        have hmem : (p1 :: tl').get ⟨i, hi⟩ ∈ p1 :: tl' := List.get_mem _ _ _
        have hx : hd.1 < ((p1 :: tl').get ⟨i, hi⟩).1 := hhd _ hmem
        show interpPoints ((p1 :: tl').get ⟨i, hi⟩).1 (hd :: p1 :: tl') =
          ((p1 :: tl').get ⟨i, hi⟩).2
        cases i with
        | zero =>
          show interpPoints p1.1 (hd :: p1 :: tl') = p1.2
          unfold interpPoints
          rw [if_pos le_rfl, if_neg (not_le.mpr h01)]
          have hne : p1.1 - hd.1 ≠ 0 := sub_ne_zero.mpr (ne_of_gt h01)
          field_simp
        | succ k =>
          have hk : k < tl'.length := by simpa using hi
          have hmem' : tl'.get ⟨k, hk⟩ ∈ tl' := List.get_mem _ _ _
          have hp1x : p1.1 < (tl'.get ⟨k, hk⟩).1 :=
            (List.pairwise_cons.mp htl).1 _ hmem'
          show interpPoints ((p1 :: tl').get ⟨k + 1, hi⟩).1
              (hd :: p1 :: tl') = ((p1 :: tl').get ⟨k + 1, hi⟩).2
          have hget : (p1 :: tl').get ⟨k + 1, hi⟩ = tl'.get ⟨k, hk⟩ := rfl
          rw [hget]
          unfold interpPoints
          rw [if_neg (not_le.mpr hp1x)]
          exact ih htl ⟨k + 1, hi⟩

/-- In a strictly increasing list, `get` is monotone. -/
theorem pairwise_lt_get_le {l : List ℚ} (h : l.Pairwise (· < ·))
    {i j : ℕ} (hij : i ≤ j) (hj : j < l.length) :
    l.get ⟨i, lt_of_le_of_lt hij hj⟩ ≤ l.get ⟨j, hj⟩ := by
  rcases lt_or_eq_of_le hij with hlt | heq
  · exact le_of_lt (List.pairwise_iff_get.mp h _ _ hlt)
  · subst heq
    exact le_rfl

/-- `np.interp` evaluated at the `j`-th sample of a strictly increasing
`xp` returns the `j`-th value of `fp` exactly. -/
theorem np_interp_get (xp fp : List ℚ) (hsort : xp.Pairwise (· < ·))
    (hlen : xp.length = fp.length) (j : ℕ) (hj : j < xp.length) :
    np_interp (xp.get ⟨j, hj⟩) xp fp = some (fp.get ⟨j, hlen ▸ hj⟩) := by
  cases xp with
  | nil => exact absurd hj (by simp)
  | cons x0 xps =>
    cases fp with
    | nil => exact absurd hlen (by simp)
    | cons f0 fps =>
      have hx0 : x0 = (x0 :: xps).get ⟨0, by simp⟩ := rfl
      have hge0 : (x0 :: xps).get ⟨0, by simp⟩ ≤ (x0 :: xps).get ⟨j, hj⟩ :=
        pairwise_lt_get_le hsort (Nat.zero_le j) hj
      have hlast : ((x0 :: xps).getLast (List.cons_ne_nil x0 xps)) =
          (x0 :: xps).get ⟨(x0 :: xps).length - 1, by simp⟩ := by
        rw [List.getLast_eq_getElem]
        rfl
      have hlej : (x0 :: xps).get ⟨j, hj⟩ ≤
          (x0 :: xps).get ⟨(x0 :: xps).length - 1, by simp⟩ :=
        pairwise_lt_get_le hsort (by omega) (by simp)
      simp only [np_interp]
      rw [if_neg (not_lt.mpr (hx0 ▸ hge0)), if_neg (not_lt.mpr (hlast ▸ hlej))]
      have hzlen : (List.zip (x0 :: xps) (f0 :: fps)).length =
          (x0 :: xps).length := by
        rw [List.length_zip, hlen, Nat.min_self]
      have hmapfst : (List.zip (x0 :: xps) (f0 :: fps)).map Prod.fst =
          x0 :: xps := List.map_fst_zip _ _ (le_of_eq hlen)
      have hpz : (List.zip (x0 :: xps) (f0 :: fps)).Pairwise
          (fun a b => a.1 < b.1) := by
        rw [← List.pairwise_map]
        rw [hmapfst]
        exact hsort
      have hgz : (List.zip (x0 :: xps) (f0 :: fps)).get ⟨j, hzlen ▸ hj⟩ =
          ((x0 :: xps).get ⟨j, hj⟩, (f0 :: fps).get ⟨j, hlen ▸ hj⟩) := by
        rw [List.get_eq_getElem, List.getElem_zip]
        rfl
      have := interpPoints_get _ hpz ⟨j, hzlen ▸ hj⟩
      rw [hgz] at this
      rw [this]

/-- A list whose deduplication has the same length is duplicate-free
(`len(np.unique(v)) == len(v)` means all values distinct). -/
theorem nodup_of_dedup_length {l : List ℚ} (h : l.dedup.length = l.length) :
    l.Nodup := by
  have hsub := List.dedup_sublist l
  have heq := hsub.eq_of_length h
  exact heq ▸ List.nodup_dedup l

/-- The stored pixel-index sequence has the table's length. -/
theorem pixel_index_length (w : Spectrum1DLookupWCS) :
    w.pixel_index.length = w.lookup_table.length := by
  unfold Spectrum1DLookupWCS.pixel_index
  rw [List.length_map, List.length_range]

/-- The stored pixel-index sequence `0, 1, ..., N-1` is strictly
increasing. -/
theorem pixel_index_sorted (w : Spectrum1DLookupWCS) :
    w.pixel_index.Pairwise (· < ·) := by
  unfold Spectrum1DLookupWCS.pixel_index
  rw [List.pairwise_map]
  exact (List.pairwise_lt_range _).imp
    (fun {a b} (h : a < b) => (Nat.cast_lt (α := ℚ)).mpr h)

/-- The `j`-th stored pixel index is `j`. -/
theorem pixel_index_get (w : Spectrum1DLookupWCS) (j : ℕ)
    (hj : j < w.pixel_index.length) :
    w.pixel_index.get ⟨j, hj⟩ = (j : ℚ) := by
  unfold Spectrum1DLookupWCS.pixel_index
  rw [List.get_eq_getElem, List.getElem_map, List.getElem_range]

/-- `np.interp` yields the NaN sentinel strictly left of the first or
strictly right of the last sample point. -/
theorem np_interp_none (x : ℚ) (xp fp : List ℚ) (hne : 0 < xp.length)
    (h : x < xp.get ⟨0, hne⟩ ∨ xp.get ⟨xp.length - 1, by omega⟩ < x) :
    np_interp x xp fp = none := by
  cases xp with
  | nil => exact absurd hne (by simp)
  | cons x0 xps =>
    cases fp with
    | nil => rfl
    | cons f0 fps =>
      simp only [np_interp]
      have hlast : ((x0 :: xps).getLast (List.cons_ne_nil x0 xps)) =
          (x0 :: xps).get ⟨(x0 :: xps).length - 1, by simp⟩ := by
        rw [List.getLast_eq_getElem]
        rfl
      rcases h with hl | hr
      · have hl' : x < x0 := hl
        rw [if_pos hl']
      · by_cases hx : x < x0
        · rw [if_pos hx]
        · rw [if_neg hx, if_pos (hlast ▸ hr)]

/-- A successful lookup construction returns the table and kind as
given, and certifies the table was duplicate-free. -/
theorem lookup_init_ok {lookup_table : List ℚ} {tU uA : Option SUnit}
    {kind : String} {w : Spectrum1DLookupWCS}
    (h : Spectrum1DLookupWCS.init lookup_table tU uA kind = Except.ok w) :
    w.lookup_table = lookup_table ∧
    w.lookup_table_interpolation_kind = kind ∧ lookup_table.Nodup := by
  rcases uA with _ | u
  · rcases tU with _ | t
    · simp only [Spectrum1DLookupWCS.init] at h
      exact absurd h (by simp)
    · simp only [Spectrum1DLookupWCS.init] at h
      by_cases hd : lookup_table.length ≠ lookup_table.dedup.length
      · rw [if_pos hd] at h
        exact absurd h (by simp)
      · rw [if_neg hd] at h
        have hw : Spectrum1DLookupWCS.mk lookup_table t kind = w := by
          injection h
        refine ⟨by rw [← hw], by rw [← hw], ?_⟩
        exact nodup_of_dedup_length (not_not.mp hd).symm
  · rcases tU with _ | t
    · rcases hcv : check_valid_unit u with e | uv
      · simp only [Spectrum1DLookupWCS.init, hcv] at h
        exact absurd h (by simp)
      · simp only [Spectrum1DLookupWCS.init, hcv] at h
        by_cases hd : lookup_table.length ≠ lookup_table.dedup.length
        · rw [if_pos hd] at h
          exact absurd h (by simp)
        · rw [if_neg hd] at h
          injection h with hw
          exact ⟨by rw [← hw], by rw [← hw],
            nodup_of_dedup_length (not_not.mp hd).symm⟩
    · rcases hcv : check_valid_unit u with e | uv
      · simp only [Spectrum1DLookupWCS.init, hcv] at h
        exact absurd h (by simp)
      · simp only [Spectrum1DLookupWCS.init, hcv] at h
        by_cases hd : lookup_table.length ≠ lookup_table.dedup.length
        · rw [if_pos hd] at h
          exact absurd h (by simp)
        · rw [if_neg hd] at h
          injection h with hw
          exact ⟨by rw [← hw], by rw [← hw],
            nodup_of_dedup_length (not_not.mp hd).symm⟩

/-- Evaluating a linear-kind lookup WCS exactly at an integer pixel index
inside the table returns the stored dispersion value. -/
theorem lookup_call_node (w : Spectrum1DLookupWCS)
    (hk : w.lookup_table_interpolation_kind = "linear")
    (p : ℕ) (hp : p < w.lookup_table.length) :
    w.call p = Except.ok (some (w.lookup_table.get ⟨p, hp⟩)) := by
  unfold Spectrum1DLookupWCS.call
  rw [if_pos hk]
  have hplen : p < w.pixel_index.length := by
    rw [pixel_index_length]
    exact hp
  have hx : (p : ℚ) = w.pixel_index.get ⟨p, hplen⟩ :=
    (pixel_index_get w p hplen).symm
  rw [hx,
    np_interp_get _ _ (pixel_index_sorted w) (pixel_index_length w) p hplen]

/-- Inverting a linear-kind lookup WCS with a sorted table exactly at a
stored dispersion value returns its pixel index. -/
theorem lookup_invert_node (w : Spectrum1DLookupWCS)
    (hk : w.lookup_table_interpolation_kind = "linear")
    (hsort : w.lookup_table.Pairwise (· < ·))
    (p : ℕ) (hp : p < w.lookup_table.length) :
    w.invert (w.lookup_table.get ⟨p, hp⟩) = Except.ok (some (p : ℚ)) := by
  unfold Spectrum1DLookupWCS.invert
  rw [if_pos hk]
  rw [np_interp_get w.lookup_table w.pixel_index hsort
    (pixel_index_length w).symm p hp]
  rw [pixel_index_get]

/-- Evaluating a linear-kind lookup WCS outside `[0, N-1]` yields the
NaN sentinel. -/
theorem lookup_call_out (w : Spectrum1DLookupWCS)
    (hk : w.lookup_table_interpolation_kind = "linear")
    (hN : 0 < w.lookup_table.length) (p : ℚ)
    (h : p < 0 ∨ (w.lookup_table.length : ℚ) - 1 < p) :
    w.call p = Except.ok none := by
  unfold Spectrum1DLookupWCS.call
  rw [if_pos hk]
  have hNp : 0 < w.pixel_index.length := by
    rw [pixel_index_length]
    exact hN
  rw [np_interp_none p w.pixel_index w.lookup_table hNp ?_]
  rcases h with hl | hr
  · left
    rw [pixel_index_get w 0 hNp]
    simpa using hl
  · right
    have hlen : w.pixel_index.length - 1 < w.pixel_index.length := by omega
    rw [pixel_index_get w (w.pixel_index.length - 1) hlen]
    have : ((w.pixel_index.length - 1 : ℕ) : ℚ) =
        (w.lookup_table.length : ℚ) - 1 := by
      rw [pixel_index_length]
      have := hN
      push_cast [Nat.cast_sub (by omega : 1 ≤ w.lookup_table.length)]
      ring
    rw [this]
    exact hr

/-- The concrete non-monotonic lookup table `[2, 1]` for C2. -/
def lkpCex : Spectrum1DLookupWCS := ⟨[2, 1], u_m, "linear"⟩

/-- C2 is false as stated: the lookup table `[2, 1]` (all values unique,
so construction succeeds) evaluates pixel 0, inside `[0, N-1]`, to 2,
but inverting 2 yields the undefined sentinel, not ≈ 0: `np.interp`'s
inverse table is not sorted, so 2 falls right of its last sample. -/
theorem spec_C2_counterexample :
    Spectrum1DLookupWCS.init [2, 1] (some u_m) none "linear" =
      Except.ok lkpCex ∧
    lkpCex.call 0 = Except.ok (some 2) ∧
    lkpCex.invert 2 = Except.ok none := by
  refine ⟨rfl, rfl, rfl⟩

/-- C2 (amended): for every Lookup Transform constructed over a
*strictly increasing* table, `invert(evaluate(p))` equals `p` exactly
for every integer pixel index `p` in `[0, N-1]`, and `evaluate(p)`
yields the undefined sentinel (not an error) for every `p` outside
`[0, N-1]`. -/
theorem spec_C2_amended (values : List ℚ) (tU uA : Option SUnit)
    (w : Spectrum1DLookupWCS)
    (hmk : Spectrum1DLookupWCS.init values tU uA "linear" = Except.ok w)
    (hsort : values.Pairwise (· < ·)) :
    (∀ p : ℕ, (hp : p < w.lookup_table.length) →
        w.call p = Except.ok (some (w.lookup_table.get ⟨p, hp⟩)) ∧
        w.invert (w.lookup_table.get ⟨p, hp⟩) = Except.ok (some (p : ℚ))) ∧
    (∀ p : ℚ, 0 < w.lookup_table.length →
        p < 0 ∨ (w.lookup_table.length : ℚ) - 1 < p →
        w.call p = Except.ok none) := by
  obtain ⟨htab, hkind, -⟩ := lookup_init_ok hmk
  constructor
  · intro p hp
    exact ⟨lookup_call_node w hkind p hp,
      lookup_invert_node w hkind (htab ▸ hsort) p hp⟩
  · intro p hN h
    exact lookup_call_out w hkind hN p h

/-- Witness for C2 (amended) on the sorted table `[10, 20, 30]`:
round-trip at pixel 1 and the sentinel at pixel 5. -/
theorem spec_C2_witness :
    (Spectrum1DLookupWCS.mk [10, 20, 30] u_m "linear").call 1 =
      Except.ok (some 20) ∧
    (Spectrum1DLookupWCS.mk [10, 20, 30] u_m "linear").invert 20 =
      Except.ok (some 1) ∧
    (Spectrum1DLookupWCS.mk [10, 20, 30] u_m "linear").call 5 =
      Except.ok none := by
  have h := spec_C2_amended [10, 20, 30] (some u_m) none
    (Spectrum1DLookupWCS.mk [10, 20, 30] u_m "linear") rfl (by decide)
  refine ⟨?_, ?_, h.2 5 (by decide) (Or.inr (by norm_num))⟩
  · have h1 := (h.1 1 (by decide)).1
    simpa using h1
  · have h1 := (h.1 1 (by decide)).2
    simpa using h1

/-- C6: a Lookup Transform built from a table with a duplicate value
(and a resolvable unit) always fails with the non-bijectivity error, and
every successful construction certifies the table was duplicate-free. -/
theorem spec_C6_nonbijective :
    (∀ (values : List ℚ) (u : SUnit) (kind : String), ¬ values.Nodup →
        Spectrum1DLookupWCS.init values (some u) none kind =
          Except.error Err.nonBijective) ∧
    (∀ (values : List ℚ) (tU uA : Option SUnit) (kind : String)
        (w : Spectrum1DLookupWCS),
        Spectrum1DLookupWCS.init values tU uA kind = Except.ok w →
        values.Nodup) := by
  constructor
  · intro values u kind hdup
    simp only [Spectrum1DLookupWCS.init]
    rw [if_pos]
    intro hlen
    exact hdup (nodup_of_dedup_length hlen.symm)
  · intro values tU uA kind w h
    exact (lookup_init_ok h).2.2

/-- Witness for C6: the duplicated table `[5, 5]` is rejected with the
non-bijectivity error, and a successful construction over `[2, 1]`
certifies distinctness. -/
theorem spec_C6_witness :
    Spectrum1DLookupWCS.init [5, 5] (some u_m) none "linear" =
      Except.error Err.nonBijective ∧
    List.Nodup ([2, 1] : List ℚ) :=
  ⟨spec_C6_nonbijective.1 [5, 5] u_m "linear" (by decide),
   spec_C6_nonbijective.2 [2, 1] (some u_m) none "linear"
     ⟨[2, 1], u_m, "linear"⟩ rfl⟩

/-- C5 is false as stated: a Lookup Transform whose table carries the
unit kg (not equivalent to any of pixel/velocity/length/frequency/
energy) with no explicit unit argument is constructed successfully —
`check_valid_unit` is never invoked on that path, although it rejects
kg. -/
theorem spec_C5_counterexample :
    Spectrum1DLookupWCS.init [1, 2] (some u_kg) none "linear" =
      Except.ok ⟨[1, 2], u_kg, "linear"⟩ ∧
    check_valid_unit u_kg = Except.error Err.invalidUnit :=
  ⟨rfl, rfl⟩

/-- C5 (amended): the validator accepts a unit iff it is dimensionally
equivalent to one of {pixel, velocity, length, frequency, energy}; the
Linear Transform always validates both coerced scalars, so an invalid
explicit unit fails its construction; the Lookup Transform invokes the
validator only when an explicit unit argument is passed, in which case
an invalid unit fails its construction too (a lookup table whose own
unit is invalid is accepted unvalidated when no argument is given). -/
theorem spec_C5_amended :
    (∀ u : SUnit, check_valid_unit u = Except.ok () ↔
        (u.dim = u_pix.dim ∨ u.dim = u_km_s.dim ∨ u.dim = u_m.dim ∨
         u.dim = u_Hz.dim ∨ u.dim = u_erg.dim)) ∧
    (∀ (d0 dd pix0 : ℚ) (u : SUnit),
        check_valid_unit u = Except.error Err.invalidUnit →
        Spectrum1DLinearWCS.init (.plain d0) (.plain dd) pix0 (some u) =
          Except.error Err.invalidUnit) ∧
    (∀ (values : List ℚ) (tU : Option SUnit) (u : SUnit) (kind : String),
        check_valid_unit u = Except.error Err.invalidUnit →
        Spectrum1DLookupWCS.init values tU (some u) kind =
          Except.error Err.invalidUnit) := by
  refine ⟨?_, ?_, ?_⟩
  · intro u
    have hany : (valid_spectral_units.any (fun x => u.is_equivalent x)) =
        true ↔ (u.dim = u_pix.dim ∨ u.dim = u_km_s.dim ∨ u.dim = u_m.dim ∨
          u.dim = u_Hz.dim ∨ u.dim = u_erg.dim) := by
      simp [valid_spectral_units, SUnit.is_equivalent]
    unfold check_valid_unit
    split_ifs with hc
    · exact ⟨fun _ => hany.mp hc, fun _ => rfl⟩
    · exact ⟨fun habs => absurd habs (by simp),
        fun hd => absurd (hany.mpr hd) hc⟩
  · intro d0 dd pix0 u hcv
    simp only [Spectrum1DLinearWCS.init, u_Quantity, hcv]
  · intro values tU u kind hcv
    rcases tU with _ | t <;>
      simp only [Spectrum1DLookupWCS.init, hcv]

/-- Witness for C5 (amended): kg fails the Linear construction and the
Lookup construction with an explicit unit argument; Angstrom passes the
validator. -/
theorem spec_C5_witness :
    Spectrum1DLinearWCS.init (.plain 1) (.plain 2) 0 (some u_kg) =
      Except.error Err.invalidUnit ∧
    Spectrum1DLookupWCS.init [1, 2] none (some u_kg) "linear" =
      Except.error Err.invalidUnit ∧
    check_valid_unit u_AA = Except.ok () :=
  ⟨spec_C5_amended.2.1 1 2 0 u_kg rfl,
   spec_C5_amended.2.2 [1, 2] none u_kg "linear" rfl,
   (spec_C5_amended.1 u_AA).mpr (Or.inr (Or.inr (Or.inl rfl)))⟩

/-- C7: building from `{CRVAL1: 5000, CRPIX1: 1, CDELT1: 1.5, CUNIT1:
Angstrom}` succeeds with the 1-based CRPIX becoming pixel_index 0 and
`evaluate(0) = 5000 Angstrom`; with a resolvable unit, a header missing
both delta keywords, or missing CRPIX or CRVAL, fails with the
missing-keyword error. -/
theorem spec_C7_fits :
    (Spectrum1DLinearWCS.from_fits_header
        ⟨some u_AA, some (3 / 2), none, some 1, some 5000⟩ none =
          Except.ok ⟨5000, 3 / 2, 0, u_AA⟩ ∧
      (Spectrum1DLinearWCS.mk 5000 (3 / 2) 0 u_AA).call 0 =
        SQuantity.mk 5000 u_AA) ∧
    (∀ (h : FitsHeader) (uA : Option SUnit),
        (uA.isSome ∨ h.cunit.isSome) → h.cdelt = none → h.cd = none →
        Spectrum1DLinearWCS.from_fits_header h uA =
          Except.error Err.missingKeyword) ∧
    (∀ (h : FitsHeader) (uA : Option SUnit),
        (uA.isSome ∨ h.cunit.isSome) →
        (h.cdelt.isSome ∨ h.cd.isSome) →
        (h.crpix = none ∨ h.crval = none) →
        Spectrum1DLinearWCS.from_fits_header h uA =
          Except.error Err.missingKeyword) := by
  refine ⟨⟨?_, ?_⟩, ?_, ?_⟩
  · simp only [Spectrum1DLinearWCS.from_fits_header,
      Spectrum1DLinearWCS.init, u_Quantity, check_valid_unit,
      valid_spectral_units, SUnit.is_equivalent]
    norm_num [u_AA, u_pix, u_km_s, u_m, u_Hz, u_erg]
  · simp only [Spectrum1DLinearWCS.call, SQuantity.mk.injEq]
    norm_num
  · intro h uA hu hc1 hc2
    obtain ⟨cu, cd1, cd2, cp, cv⟩ := h
    rcases uA with _ | u <;> rcases cu with _ | cu' <;>
      rcases cd1 with _ | c1 <;> rcases cd2 with _ | c2 <;>
      rcases cp with _ | p <;> rcases cv with _ | v <;>
      first
      | rfl
      | simp_all
  · intro h uA hu hdelta hpv
    obtain ⟨cu, cd1, cd2, cp, cv⟩ := h
    rcases uA with _ | u <;> rcases cu with _ | cu' <;>
      rcases cd1 with _ | c1 <;> rcases cd2 with _ | c2 <;>
      rcases cp with _ | p <;> rcases cv with _ | v <;>
      first
      | rfl
      | simp_all

/-- Witness for C7: the Scenario E header succeeds; dropping CDELT (with
no CD) or CRPIX fails with the missing-keyword error. -/
theorem spec_C7_witness :
    Spectrum1DLinearWCS.from_fits_header
        ⟨some u_AA, some (3 / 2), none, some 1, some 5000⟩ none =
      Except.ok ⟨5000, 3 / 2, 0, u_AA⟩ ∧
    Spectrum1DLinearWCS.from_fits_header
        ⟨some u_AA, none, none, some 1, some 5000⟩ none =
      Except.error Err.missingKeyword ∧
    Spectrum1DLinearWCS.from_fits_header
        ⟨some u_AA, some (3 / 2), none, none, some 5000⟩ none =
      Except.error Err.missingKeyword :=
  ⟨spec_C7_fits.1.1,
   spec_C7_fits.2.1 ⟨some u_AA, none, none, some 1, some 5000⟩ none
     (Or.inr rfl) rfl rfl,
   spec_C7_fits.2.2 ⟨some u_AA, some (3 / 2), none, none, some 5000⟩ none
     (Or.inr rfl) (Or.inl rfl) (Or.inl rfl)⟩

/-- A successful radial-velocity assignment stores exactly the assigned
value, leaving every other field unchanged. -/
theorem set_radial_velocity_ok {s : Spectrum1D} {v : RVal}
    {s' : Spectrum1D}
    (h : s.set_radial_velocity (some v) = Except.ok s') :
    s' = { s with rv := some v } := by
  simp only [Spectrum1D.set_radial_velocity] at h
  split_ifs at h with h1 h2
  injection h with hw
  exact hw.symm

/-- Any radial-velocity assignment (including clearing) preserves the
data shape, wcs length and mode of the container. -/
theorem set_radial_velocity_preserves {s : Spectrum1D} {v0 : Option RVal}
    {s' : Spectrum1D} (h : s.set_radial_velocity v0 = Except.ok s') :
    s'.dataShape = s.dataShape ∧ s'.wcsLen = s.wcsLen ∧
    s'.minimal = s.minimal := by
  rcases v0 with _ | v
  · simp only [Spectrum1D.set_radial_velocity] at h
    injection h with hw
    rw [← hw]
    exact ⟨rfl, rfl, rfl⟩
  · rw [set_radial_velocity_ok h]
    exact ⟨rfl, rfl, rfl⟩

/-- C3: the redshift and radial-velocity properties are two views of the
single stored radial velocity: a successful assignment to either is read
back consistently through both (`redshift = radial_velocity / c`,
physically), clearing either clears the one stored value, and every
constructed container reads `redshift` as its stored radial velocity
over `c` (absent radial velocity makes the `redshift` read fail, not
return a stale value). -/
theorem spec_C3_redshift_lockstep :
    (∀ (s : Spectrum1D) (v : RVal) (s' : Spectrum1D),
        s.set_radial_velocity (some v) = Except.ok s' →
        s'.radial_velocity = some v ∧
        s'.redshift = Except.ok (v.value * v.unit.scale / c_si, v.shape)) ∧
    (∀ (s : Spectrum1D) (z : ℚ) (sh : List ℕ) (s' : Spectrum1D),
        s.set_redshift (some (z, sh)) = Except.ok s' →
        s'.radial_velocity = some ⟨z * c_si, u_m_per_s, sh⟩ ∧
        s'.redshift = Except.ok (z, sh)) ∧
    (∀ (s s' : Spectrum1D),
        s.set_radial_velocity none = Except.ok s' ∨
        s.set_redshift none = Except.ok s' →
        s'.radial_velocity = none) ∧
    (∀ (flux0 : Option FluxArg) (sa0 : Option (ℕ × SUnit)) (w0 : Option ℕ)
        (r0 : Option ℚ) (rv0 : Option RVal) (d0 : Option FluxArg)
        (u0 : Option (List ℕ)) (s : Spectrum1D),
        Spectrum1D.init flux0 sa0 w0 r0 rv0 d0 u0 = Except.ok s →
        (∀ v, s.radial_velocity = some v →
            s.redshift = Except.ok (v.value * v.unit.scale / c_si, v.shape)) ∧
        (s.radial_velocity = none →
            s.redshift = Except.error Err.invalidArgument)) := by
  refine ⟨?_, ?_, ?_, ?_⟩
  · intro s v s' h
    rw [set_radial_velocity_ok h]
    exact ⟨rfl, rfl⟩
  · intro s z sh s' h
    simp only [Spectrum1D.set_redshift] at h
    rw [set_radial_velocity_ok h]
    refine ⟨rfl, ?_⟩
    show Except.ok (z * c_si * u_m_per_s.scale / c_si, sh) =
      Except.ok (z, sh)
    have hc : (c_si : ℚ) ≠ 0 := by norm_num [c_si]
    rw [show u_m_per_s.scale = 1 from rfl, mul_one,
      mul_div_cancel_right₀ z hc]
  · intro s s' h
    rcases h with h | h
    · simp only [Spectrum1D.set_radial_velocity] at h
      injection h with hw
      rw [← hw]
      rfl
    · simp only [Spectrum1D.set_redshift] at h
      injection h with hw
      rw [← hw]
      rfl
  · intro flux0 sa0 w0 r0 rv0 d0 u0 s _
    constructor
    · intro v hv
      unfold Spectrum1D.redshift
      unfold Spectrum1D.radial_velocity at hv
      rw [hv]
    · intro hv
      unfold Spectrum1D.redshift
      unfold Spectrum1D.radial_velocity at hv
      rw [hv]

/-- Witness for C3: assigning 1000 km/s reads back consistently, and a
redshift of 1/10 stores 1/10·c and reads back 1/10. -/
theorem spec_C3_witness :
    (Spectrum1D.mk (some [3]) (some 3) false
        (some ⟨1000, u_km_s, []⟩)).radial_velocity =
      some ⟨1000, u_km_s, []⟩ ∧
    (Spectrum1D.mk (some [3]) (some 3) false
        (some ⟨1000, u_km_s, []⟩)).redshift =
      Except.ok (1000 * u_km_s.scale / c_si, []) ∧
    (Spectrum1D.mk (some [3]) (some 3) false
        (some ⟨(1 / 10 : ℚ) * c_si, u_m_per_s, []⟩)).redshift =
      Except.ok (1 / 10, []) := by
  have h1 := spec_C3_redshift_lockstep.1
    (Spectrum1D.mk (some [3]) (some 3) false none) ⟨1000, u_km_s, []⟩
    (Spectrum1D.mk (some [3]) (some 3) false (some ⟨1000, u_km_s, []⟩)) rfl
  have h2 := spec_C3_redshift_lockstep.2.1
    (Spectrum1D.mk (some [3]) (some 3) false none) (1 / 10) []
    (Spectrum1D.mk (some [3]) (some 3) false
      (some ⟨(1 / 10 : ℚ) * c_si, u_m_per_s, []⟩)) rfl
  exact ⟨h1.1, h1.2, h2.2⟩

/-- A successful `init_finish` produces a non-minimal container with the
requested data shape and wcs length. -/
theorem init_finish_ok {fs : Option (List ℕ)} {wl : Option ℕ}
    {scRV : Option RVal} {u0 : Option (List ℕ)} {s : Spectrum1D}
    (h : Spectrum1D.init_finish fs wl scRV u0 = Except.ok s) :
    s.dataShape = fs ∧ s.wcsLen = wl ∧ s.minimal = false := by
  unfold Spectrum1D.init_finish at h
  rcases hset : Spectrum1D.set_radial_velocity
      ⟨fs, wl, false, none⟩ scRV with e | s1
  · simp only [hset] at h
    exact absurd h (by simp)
  · simp only [hset] at h
    have hpres := set_radial_velocity_preserves hset
    split at h
    · split_ifs at h with hu
      all_goals first
        | exact Except.noConfusion h
        | (injection h with hw
           rw [← hw]
           exact hpres)
    · injection h with hw
      rw [← hw]
      exact hpres

/-- C4: when a flux Quantity and a spectral-axis Quantity are both
given (and the redshift/radial-velocity arguments do not already
conflict), every successful construction satisfies
`len(spectral_axis) = flux.shape[-1]`, and every construction with
differing lengths fails with the shape-mismatch error. -/
theorem spec_C4_shape_check (sh : List ℕ) (fu : SUnit) (n : ℕ) (su : SUnit)
    (w0 : Option ℕ) (r0 : Option ℚ) (rv0 : Option RVal)
    (d0 : Option FluxArg) (u0 : Option (List ℕ))
    (hrx : ¬(r0.isSome ∧ rv0.isSome)) :
    (∀ s, Spectrum1D.init (some (.quant sh fu)) (some (n, su)) w0 r0 rv0
        d0 u0 = Except.ok s →
      s.wcsLen = some n ∧
      s.dataShape = some (if sh = [] then [1] else sh) ∧
      n = (if sh = [] then [1] else sh).getLastD 0) ∧
    (n ≠ (if sh = [] then [1] else sh).getLastD 0 →
      Spectrum1D.init (some (.quant sh fu)) (some (n, su)) w0 r0 rv0
        d0 u0 = Except.error Err.shapeMismatch) := by
  have hb : ¬((r0.isSome && rv0.isSome) = true) := by
    rcases r0 <;> rcases rv0 <;> simp_all
  constructor
  · intro s hok
    simp only [Spectrum1D.init, promote_flux, if_neg hb,
      FluxArg.shapeOf] at hok
    rw [if_neg (by simp :
      ¬(true = false ∧
        (some (if sh = [] then [1] else sh)).getD [] = []))] at hok
    by_cases hsh : n = (if sh = [] then [1] else sh).getLastD 0
    · rw [if_pos (by simpa using hsh)] at hok
      obtain ⟨hds, hwl, -⟩ := init_finish_ok hok
      exact ⟨hwl, hds, hsh⟩
    · rw [if_neg (by simpa using hsh)] at hok
      exact absurd hok (by simp)
  · intro hne
    simp only [Spectrum1D.init, promote_flux, if_neg hb, FluxArg.shapeOf]
    rw [if_neg (by simp :
      ¬(true = false ∧
        (some (if sh = [] then [1] else sh)).getD [] = []))]
    rw [if_neg (by simpa using hne)]

/-- Witness for C4: flux of shape `(4,)` with a 4-sample axis succeeds
with matching lengths; with a 3-sample axis it fails with the
shape-mismatch error. -/
theorem spec_C4_witness :
    (Spectrum1D.init (some (.quant [4] u_erg)) (some (4, u_AA)) none none
        none none none = Except.ok ⟨some [4], some 4, false, none⟩ →
      (⟨some [4], some 4, false, none⟩ : Spectrum1D).wcsLen = some 4) ∧
    Spectrum1D.init (some (.quant [4] u_erg)) (some (3, u_AA)) none none
        none none none = Except.error Err.shapeMismatch := by
  constructor
  · intro hok
    exact ((spec_C4_shape_check [4] u_erg 4 u_AA none none none none none
      (by simp)).1 ⟨some [4], some 4, false, none⟩ hok).1
  · exact (spec_C4_shape_check [4] u_erg 3 u_AA none none none none none
      (by simp)).2 (by decide)

/-- C10: a scalar flux Quantity is promoted to a one-element array
before any further processing — with no spectral axis or wcs the
container gets data shape `(1,)` and a one-element wcs array, and never
the minimal scalar mode; the minimal mode is reached only when the flux
slot ends up holding no data at all or non-Quantity scalar data from the
`data` keyword. -/
theorem spec_C10_scalar_quantity_flux :
    (∀ (fu : SUnit) (r0 : Option ℚ) (rv0 : Option RVal)
        (d0 : Option FluxArg),
        ¬(r0.isSome ∧ rv0.isSome) →
        Spectrum1D.init (some (.quant [] fu)) none none r0 rv0 d0 none =
          Except.ok ⟨some [1], some 1, false, none⟩) ∧
    (∀ (flux0 : Option FluxArg) (sa0 : Option (ℕ × SUnit)) (w0 : Option ℕ)
        (r0 : Option ℚ) (rv0 : Option RVal) (d0 : Option FluxArg)
        (u0 : Option (List ℕ)) (s : Spectrum1D),
        Spectrum1D.init flux0 sa0 w0 r0 rv0 d0 u0 = Except.ok s →
        s.minimal = true →
        flux0 = none ∧ (d0 = none ∨ d0 = some (.raw []))) := by
  constructor
  · intro fu r0 rv0 d0 hrx
    rcases r0 with _ | z <;> rcases rv0 with _ | v <;>
      first
      | rfl
      | simp_all
  · intro flux0 sa0 w0 r0 rv0 d0 u0 s hok hmin
    rcases flux0 with _ | fl
    · refine ⟨rfl, ?_⟩
      rcases d0 with _ | dl
      · exact Or.inl rfl
      · rcases dl with ⟨shq, fq⟩ | shr
        · simp only [Spectrum1D.init, promote_flux, FluxArg.shapeOf] at hok
          by_cases hbb : (r0.isSome && rv0.isSome) = true
          · rw [if_pos hbb] at hok
            exact Except.noConfusion hok
          · rw [if_neg hbb] at hok
            rw [if_neg (by simp)] at hok
            split at hok
            · have hm := (init_finish_ok hok).2.2
              rw [hmin] at hm
              exact Bool.noConfusion hm
            · exact Except.noConfusion hok
        · rcases shr with _ | ⟨k, shr'⟩
          · exact Or.inr rfl
          · simp only [Spectrum1D.init, promote_flux,
              FluxArg.shapeOf] at hok
            by_cases hbb : (r0.isSome && rv0.isSome) = true
            · rw [if_pos hbb] at hok
              exact Except.noConfusion hok
            · rw [if_neg hbb] at hok
              rw [if_neg (by simp)] at hok
              split at hok
              · have hm := (init_finish_ok hok).2.2
                rw [hmin] at hm
                exact Bool.noConfusion hm
              · exact Except.noConfusion hok
    · rcases fl with ⟨shq, fq⟩ | shr
      · rcases shq with _ | ⟨k0, shq'⟩
        · simp only [Spectrum1D.init, promote_flux, FluxArg.shapeOf] at hok
          rw [if_pos trivial] at hok
          by_cases hbb : (r0.isSome && rv0.isSome) = true
          · rw [if_pos hbb] at hok
            exact Except.noConfusion hok
          · rw [if_neg hbb] at hok
            rw [if_neg (by simp)] at hok
            split at hok
            · have hm := (init_finish_ok hok).2.2
              rw [hmin] at hm
              exact Bool.noConfusion hm
            · exact Except.noConfusion hok
        · simp only [Spectrum1D.init, promote_flux, FluxArg.shapeOf] at hok
          rw [if_neg (List.cons_ne_nil k0 shq')] at hok
          by_cases hbb : (r0.isSome && rv0.isSome) = true
          · rw [if_pos hbb] at hok
            exact Except.noConfusion hok
          · rw [if_neg hbb] at hok
            rw [if_neg (by simp)] at hok
            split at hok
            · have hm := (init_finish_ok hok).2.2
              rw [hmin] at hm
              exact Bool.noConfusion hm
            · exact Except.noConfusion hok
      · simp only [Spectrum1D.init, promote_flux] at hok
        exact Except.noConfusion hok

/-- Witness for C10: a scalar erg-valued flux Quantity yields the
one-element container with a one-element wcs array, not the minimal
mode. -/
theorem spec_C10_witness :
    Spectrum1D.init (some (.quant [] u_erg)) none none none none none
      none = Except.ok ⟨some [1], some 1, false, none⟩ :=
  spec_C10_scalar_quantity_flux.1 u_erg none none none (by simp)
